import Mathlib

/-!
Verification of the training-orchestration core of the `lvamodel` repository.

The monitors live in `cvap/monitor/cvap_dp.py` (image–audio) and
`cvap/monitor/clap_dp.py` (audio–text); an earlier single-device monitor is
`cvap/cvap.py`, and the multi-label metric aggregator is
`cvap/module/decoder/loss_more.py`.  The definitions below are shallow
embeddings of those functions: Python integers become `Nat`, floating-point
learning rates and losses become `ℚ`, tensors are abstracted to the data the
control flow inspects (shapes, flags, buffered score/label matrices), and
Python exceptions become `Except`.
-/

namespace Cvap

/-! ## Configuration and run state (spec §3, both monitors) -/

/-- The `running` section of the configuration, restricted to the fields the
monitors read. -/
structure RunningConfig where
  data_name : String
  eval_name : String
  data_root : String
  peep_rate : ℕ
  save_rate : ℕ
  save_epoch : Bool
  eval_samples : ℕ
  resolution : ℕ
  eval_norms : Bool
  deriving DecidableEq

/-- The `optimizer` section of the configuration, restricted to the fields the
monitors read. -/
structure OptimizerConfig where
  epochs : ℕ
  warmup : Bool
  warmup_steps : ℕ
  use_lars : Bool
  batch_sch : Bool
  lr : ℚ
  weight_decay : ℚ
  deriving DecidableEq

/-- The hierarchical configuration record read once at startup. -/
structure Config where
  running : RunningConfig
  optimizer : OptimizerConfig
  rank : ℕ
  num_gpus : ℕ
  eval : Bool
  verbose : Bool
  alias_root : String
  model_name : String
  deriving DecidableEq

/-- The mutable counters owned by the training loop (`learn` initializes
`total_step`, `total_loss`, `total_inst`). -/
structure RunState where
  total_step : ℕ
  total_loss : ℚ
  total_inst : ℕ
  deriving DecidableEq

/-- cvap_dp.py:70-72 — `build_data` clamps the configured peep rate to the
number of batches of the main dataloader; no other configuration field is
written. -/
def cvap_build_data_cfg (cfg : Config) (nstep : ℕ) : Config :=
  if nstep < cfg.running.peep_rate then
    { cfg with running := { cfg.running with peep_rate := nstep } }
  else cfg

/-- clap_dp.py:61-77 — `build_data` of the audio–text monitor reads the
configuration but never writes any field of it. -/
def clap_build_data_cfg (cfg : Config) : Config := cfg

/-- cvap_dp.py:204-206 / clap_dp.py:165-167 — the per-step counter update:
`total_step += 1; total_loss += loss.detach(); total_inst += bsz * nchunk`.
The configuration is not touched by the step. -/
def step_counter_update (cfg : Config) (s : RunState) (loss : ℚ) (bsz nchunk : ℕ) :
    Config × RunState :=
  (cfg,
   { total_step := s.total_step + 1
     total_loss := s.total_loss + loss
     total_inst := s.total_inst + bsz * nchunk })

/-! ## Step logging (C1; cvap_dp.py:207, clap_dp.py:169) -/

/-- cvap_dp.py:207 — guard of the step log line in the image–audio monitor:
`if force_eval or (self.cfg.rank == 0 and self.total_step % self.cfg.running.peep_rate == 0)`. -/
def cvap_log_cond (force_eval : Bool) (rank total_step peep_rate : ℕ) : Bool :=
  force_eval || (rank == 0 && total_step % peep_rate == 0)

/-- clap_dp.py:169 — guard of the step log line in the audio–text monitor:
`if self.cfg.rank == 0 and self.total_step % self.cfg.running.peep_rate == 0`. -/
def clap_log_cond (rank total_step peep_rate : ℕ) : Bool :=
  rank == 0 && total_step % peep_rate == 0

/-! ## Batch pipeline (C6; cvap_dp.py:110-123, clap_dp.py:104-114) -/

/-- Shape semantics of `torch.Tensor.unsqueeze(1)`: a size-one dimension is
inserted at position 1 of the shape. -/
def unsqueeze1 (shape : List ℕ) : List ℕ :=
  shape.take 1 ++ 1 :: shape.drop 1

/-- cvap_dp.py:112 / clap_dp.py:106-108 — in `make_batch` the raw audio array
is turned into a tensor and `unsqueeze(1)` is applied; this is the shape of
the resulting audio tensor. -/
def make_batch_audio_shape (shape : List ℕ) : List ℕ :=
  unsqueeze1 shape

/-! ## Warmup guard (C9; clap_dp.py:137,144 vs cvap_dp.py:161,173) -/

/-- clap_dp.py:137,144 — the audio–text monitor computes
`warmup_step_rate = warmup_steps // 20` (no lower bound) and then evaluates
`total_step % warmup_step_rate == 0`; Python `%` by zero raises
`ZeroDivisionError`.  The conjunction is short-circuited as in Python. -/
def clap_warmup_check (warmup : Bool) (total_step warmup_steps : ℕ) :
    Except String Bool :=
  if warmup = true ∧ total_step ≤ warmup_steps then
    if warmup_steps / 20 = 0 then Except.error "ZeroDivisionError"
    else Except.ok (total_step % (warmup_steps / 20) == 0)
  else Except.ok false

/-- cvap_dp.py:161,171-173 — the image–audio monitor guards the rate with
`max(warmup_steps // 20, 1)`, so the modulus is never zero.  The dead
zero-divisor branch is kept to mirror the Python expression. -/
def cvap_warmup_check (use_lars warmup : Bool) (total_step warmup_steps : ℕ) :
    Except String Bool :=
  if (!use_lars && warmup) = true ∧ total_step ≤ warmup_steps then
    if max (warmup_steps / 20) 1 = 0 then Except.error "ZeroDivisionError"
    else Except.ok (total_step % max (warmup_steps / 20) 1 == 0)
  else Except.ok false

/-! ## Save block of the audio–text monitor (C10; clap_dp.py:181-195) -/

/-- clap_dp.py:181-183 — the cadence guarding the evaluation/checkpoint block:
`total_step % save_rate == 0 or (save_epoch and total_step % len(dataloader) == 0)`. -/
def clap_save_cadence (total_step save_rate : ℕ) (save_epoch : Bool)
    (nbatches : ℕ) : Bool :=
  total_step % save_rate == 0 || (save_epoch && total_step % nbatches == 0)

/-- Observable effects of one pass through the save block. -/
structure SaveBlockEffect where
  eval_ran : Bool
  checkpoint_written : Bool
  deriving DecidableEq

/-- clap_dp.py:181-195 — inside the cadence block the held-out evaluation runs
only when an eval loader exists and the current detached loss is `< 5.`, while
`self.save()` is called whenever `self.cfg.rank == 0`. -/
def clap_save_block (cadence has_evalloader : Bool) (loss : ℚ) (rank : ℕ) :
    SaveBlockEffect :=
  if cadence then
    { eval_ran := has_evalloader && decide (loss < 5)
      checkpoint_written := rank == 0 }
  else
    { eval_ran := false, checkpoint_written := false }

/-! ## Parameter selection (C2; cvap_dp.py:286-290, cvap.py:153-161) -/

/-- cvap_dp.py:288 — `re.sub("^module\\.", "", k)`: the DistributedDataParallel
name prefix is stripped before the tunable lookup. -/
def stripModule (k : String) : String :=
  if k.startsWith "module." then k.drop 7 else k

/-- cvap_dp.py:287-290 — the parameter-selection loop of `build_optimizer`:
for every named parameter of the model (a name paired with its current
`requires_grad` flag), the flag is set to `False` when the (DDP-stripped) name
is not in the tunable mapping, and is left untouched otherwise. -/
def selectParams (ddp : Bool) (tunable : List String)
    (params : List (String × Bool)) : List (String × Bool) :=
  params.map fun kv =>
    if (if ddp then stripModule kv.1 else kv.1) ∈ tunable then kv
    else (kv.1, false)

/-- The names of the parameters whose `requires_grad` flag is set. -/
def trainableNames (params : List (String × Bool)) : List String :=
  (params.filter fun kv => kv.2).map fun kv => kv.1

/-! ## Warmup learning-rate ramp (C3; cvap_dp.py:161-180) -/

/-- cvap_dp.py:161 — `warmup_step_rate = max(self.cfg.optimizer.warmup_steps // 20, 1)`. -/
def warmup_step_rate (warmup_steps : ℕ) : ℕ :=
  max (warmup_steps / 20) 1

/-- cvap_dp.py:171-176 — the warmup update seen by one parameter group at the
loop iteration whose pre-increment `total_step` is `st`: when warmup is still
active (`st ≤ warmup_steps`) and `st` hits the warmup step rate, the group's
lr is set to `(st / warmup_steps) * initial_lr`; otherwise the lr is left
unchanged.  (The scheduler is not stepped while warmup is active,
cvap_dp.py:189.) -/
def warmupLrStep (warmup_steps : ℕ) (initial_lr : ℚ) (st : ℕ) (lr : ℚ) : ℚ :=
  if st ≤ warmup_steps ∧ st % warmup_step_rate warmup_steps = 0 then
    ((st : ℚ) / (warmup_steps : ℚ)) * initial_lr
  else lr

/-- The lr of a parameter group after the warmup checks of loop iterations
`0, 1, …, n` (the group starts at `lr0`; iteration `i` checks
`total_step = i`). -/
def warmupLrAfter (warmup_steps : ℕ) (initial_lr lr0 : ℚ) : ℕ → ℚ
  | 0 => warmupLrStep warmup_steps initial_lr 0 lr0
  | n + 1 => warmupLrStep warmup_steps initial_lr (n + 1)
      (warmupLrAfter warmup_steps initial_lr lr0 n)

/-! ## Checkpoint writes (C8; cvap_dp.py:268-275, clap_dp.py:231-238) -/

/-- The character rendering one decimal digit. -/
def digitChar : ℕ → Char
  | 0 => '0' | 1 => '1' | 2 => '2' | 3 => '3' | 4 => '4'
  | 5 => '5' | 6 => '6' | 7 => '7' | 8 => '8' | 9 => '9'
  | _ => '*'

/-- The decimal value of a digit character. -/
def charVal (c : Char) : ℕ := c.toNat - 48

/-- The decimal digit characters (most significant first) of `n`, as rendered
by Python's `str`; `str(0) = "0"`. -/
def decChars (n : ℕ) : List Char :=
  if n = 0 then ['0'] else ((Nat.digits 10 n).map digitChar).reverse

/-- cvap_dp.py:269 / clap_dp.py:232 — the `f"{self.total_step:08d}"` format
field: the decimal rendering of the step, left-padded with zeros to width
8. -/
def pad8 (n : ℕ) : List Char :=
  List.replicate (8 - (decChars n).length) '0' ++ decChars n

/-- cvap_dp.py:269 / clap_dp.py:232 — the checkpoint path
`f"{self.cfg.alias_root}/{self.cfg.model_name}/{self.total_step:08d}.pth"`,
modelled as its character list. -/
def save_path (alias_root model_name : List Char) (total_step : ℕ) :
    List Char :=
  alias_root ++ ('/' :: (model_name ++ ('/' :: (pad8 total_step ++ ".pth".data))))

/-- The record serialized by `Monitor.save` (cvap_dp.py:272-274):
`{"cfg": self.cfg, "model": model.collect_audio_state_dict()}` — the
configuration snapshot plus the per-sub-head state, of abstract type `σ`. -/
structure Checkpoint (σ : Type) where
  cfg : Config
  model : σ

/-- cvap_dp.py:268-275 / clap_dp.py:231-238 — one checkpoint write: the path
keyed by the current total step and the serialized record. -/
def saveWrite {σ : Type} (cfg : Config) (alias_root model_name : List Char)
    (state : σ) (total_step : ℕ) : List Char × Checkpoint σ :=
  (save_path alias_root model_name total_step, ⟨cfg, state⟩)

/-- The values of `total_step` at which the save block runs during the first
`N` loop iterations of a run (cvap_dp.py:219-233; the audio–text monitor,
clap_dp.py:181-183, is the instance with `force_eval` constantly false):
`total_step` is incremented before the check, so iteration `i` checks the
cadence at `total_step = i + 1`, and the save block runs at most once per
iteration. -/
def savedSteps (N save_rate nbatches : ℕ) (save_epoch : Bool)
    (force_eval : ℕ → Bool) : List ℕ :=
  ((List.range N).map (· + 1)).filter fun s =>
    force_eval s || s % save_rate == 0 || (save_epoch && s % nbatches == 0)

/-- The checkpoint paths written during the first `N` loop iterations. -/
def savedPaths (alias_root model_name : List Char)
    (N save_rate nbatches : ℕ) (save_epoch : Bool) (force_eval : ℕ → Bool) :
    List (List Char) :=
  (savedSteps N save_rate nbatches save_epoch force_eval).map
    (save_path alias_root model_name)

/-! ## Metric aggregator (C4, C5; cvap/module/decoder/loss_more.py:42-97) -/

/-- Insertion into a list of (gold, score) pairs kept in descending score
order; models the descending-score ranking underlying sklearn's average
precision (ties keep their input order). -/
def insertDesc (p : ℕ × ℚ) : List (ℕ × ℚ) → List (ℕ × ℚ)
  | [] => [p]
  | q :: rest => if q.2 < p.2 then p :: q :: rest else q :: insertDesc p rest

/-- Sort (gold, score) pairs by descending score. -/
def sortDesc : List (ℕ × ℚ) → List (ℕ × ℚ)
  | [] => []
  | p :: rest => insertDesc p (sortDesc rest)

/-- Sum, over the positives of a descending-score ranking, of the precision
at each positive's rank; `rank` and `tp` count the items and the true
positives already seen. -/
def apSum : List Bool → ℕ → ℕ → ℚ
  | [], _, _ => 0
  | b :: rest, rank, tp =>
    if b then ((tp + 1 : ℕ) : ℚ) / ((rank + 1 : ℕ) : ℚ)
        + apSum rest (rank + 1) (tp + 1)
    else apSum rest (rank + 1) tp

/-- The positivity flags of the (gold, score) pairs in descending score
order. -/
def rankedPositives (y_true : List ℕ) (y_score : List ℚ) : List Bool :=
  (sortDesc (y_true.zip y_score)).map fun p => p.1 != 0

/-- Model of `sklearn.metrics.average_precision_score(y_true, y_score,
average=None)` on one binary label column: the mean, over the positive
examples, of the precision at each positive's rank in the descending-score
ranking.  When the gold column has no positive example the score is undefined
and sklearn returns NaN, modelled as `none` (loss_more.py:71-74 checks
`math.isnan(ap)`). -/
def average_precision_score (y_true : List ℕ) (y_score : List ℚ) : Option ℚ :=
  if (rankedPositives y_true y_score).count true = 0 then none
  else some (apSum (rankedPositives y_true y_score) 0 0
      / ((rankedPositives y_true y_score).count true : ℚ))

/-- Contribution of one (positive score, negative score) pair to the
Mann–Whitney form of the ROC AUC. -/
def pairScore (p n : ℚ) : ℚ :=
  if n < p then 1 else if p = n then 1 / 2 else 0

/-- Scores of the positive examples of one column. -/
def posScores (y_true : List ℕ) (y_score : List ℚ) : List ℚ :=
  ((y_true.zip y_score).filter fun p => p.1 != 0).map Prod.snd

/-- Scores of the negative examples of one column. -/
def negScores (y_true : List ℕ) (y_score : List ℚ) : List ℚ :=
  ((y_true.zip y_score).filter fun p => p.1 == 0).map Prod.snd

/-- Model of `sklearn.metrics.roc_auc_score(y_true, y_score, average=None)`
on one binary column, in Mann–Whitney form; sklearn raises `ValueError` when
only one class is present in `y_true` (loss_more.py:75-79 catches the
exception). -/
def roc_auc_score (y_true : List ℕ) (y_score : List ℚ) : Except String ℚ :=
  if (posScores y_true y_score).length = 0 ∨ (negScores y_true y_score).length = 0
  then Except.error "Only one class present in y_true"
  else Except.ok
    (((posScores y_true y_score).map fun p =>
        ((negScores y_true y_score).map (pairScore p)).sum).sum
      / (((posScores y_true y_score).length : ℚ)
          * ((negScores y_true y_score).length : ℚ)))

/-- Column `k` of the row-major gold matrix (`x2s[:, k]`). -/
def column (m : List (List ℕ)) (k : ℕ) : List ℕ := m.map fun row => row.getD k 0

/-- Column `k` of the row-major score matrix (`x1s[:, k]`). -/
def columnQ (m : List (List ℚ)) (k : ℕ) : List ℚ := m.map fun row => row.getD k 0

/-- Row-major flattening of a matrix (`numpy.ravel`). -/
def ravel {α : Type} (m : List (List α)) : List α := m.flatten

/-- loss_more.py:69-85 — body of the per-label loop: the per-label average
precision (`0.` substituted when `math.isnan(ap)`) and ROC AUC (`0.`
substituted when sklearn raises), plus whether either degeneracy set
`has_err`. -/
def perLabelStep (y_true : List ℕ) (y_score : List ℚ) : ℚ × ℚ × Bool :=
  match average_precision_score y_true y_score, roc_auc_score y_true y_score with
  | some ap, Except.ok auc => (ap, auc, false)
  | some ap, Except.error _ => (ap, 0, true)
  | none, Except.ok auc => (0, auc, true)
  | none, Except.error _ => (0, 0, true)

/-- loss_more.py:62 — `average_precision_score(x2s, x1s, average='micro')`:
the binary score of the flattened arrays. -/
def ap_micro_score (x2s : List (List ℕ)) (x1s : List (List ℚ)) : Option ℚ :=
  average_precision_score (ravel x2s) (ravel x1s)

/-- The per-column binary average-precision scores of the first `nlabel`
columns. -/
def perColumnAp (x2s : List (List ℕ)) (x1s : List (List ℚ)) (nlabel : ℕ) :
    List (Option ℚ) :=
  (List.range nlabel).map fun k =>
    average_precision_score (column x2s k) (columnQ x1s k)

/-- loss_more.py:63 — `average='macro'`: the unweighted mean of the
per-column binary scores; a NaN column propagates through numpy's mean,
modelled as `none`. -/
def ap_mac_score (x2s : List (List ℕ)) (x1s : List (List ℚ)) (nlabel : ℕ) :
    Option ℚ :=
  if (perColumnAp x2s x1s nlabel).any fun o => o.isNone then none
  else some (((perColumnAp x2s x1s nlabel).map fun o => o.getD 0).sum
      / (nlabel : ℚ))

/-- The support (number of positive gold labels) of column `k`. -/
def colSupport (x2s : List (List ℕ)) (k : ℕ) : ℕ :=
  ((column x2s k).filter fun v => v != 0).length

/-- loss_more.py:64 — `average='weighted'`: the support-weighted mean of the
per-column binary scores; NaN propagates (`0 * NaN = NaN` in numpy). -/
def ap_weighted_score (x2s : List (List ℕ)) (x1s : List (List ℚ))
    (nlabel : ℕ) : Option ℚ :=
  if (perColumnAp x2s x1s nlabel).any fun o => o.isNone then none
  else some ((((List.range nlabel).map fun k =>
      ((average_precision_score (column x2s k) (columnQ x1s k)).getD 0)
        * (colSupport x2s k : ℚ)).sum)
    / (((List.range nlabel).map fun k => (colSupport x2s k : ℚ)).sum))

/-- The per-label loop results over the first `nlabel` columns
(loss_more.py:69-85). -/
def perLabelList (x2s : List (List ℕ)) (x1s : List (List ℚ)) (nlabel : ℕ) :
    List (ℚ × ℚ × Bool) :=
  (List.range nlabel).map fun k =>
    perLabelStep (column x2s k) (columnQ x1s k)

/-- The values interpolated into the summary string built by
`BCELossHead.report` (loss_more.py:86-96).  The precision/recall-curve
midpoint figures (mP, mR) and the decimal formatting are not modelled;
`has_err` is the flag rendered as `Err(...)` at the head of the string. -/
structure ReportData where
  ap_micro : Option ℚ
  ap_mac : Option ℚ
  ap_weighted : Option ℚ
  has_err : Bool
  mean_ap : ℚ
  mean_auc : ℚ
  nsample : ℕ
  deriving DecidableEq

/-- loss_more.py:57-96 — the metric computation of `BCELossHead.report` on
the accumulated score matrix `x1s` and gold matrix `x2s` (row-major,
`nsample × nlabel`; `nlabel = x1s.shape[1]`). -/
def reportData (x2s : List (List ℕ)) (x1s : List (List ℚ)) : ReportData :=
  { ap_micro := ap_micro_score x2s x1s
    ap_mac := ap_mac_score x2s x1s (x1s.headD []).length
    ap_weighted := ap_weighted_score x2s x1s (x1s.headD []).length
    has_err := (perLabelList x2s x1s (x1s.headD []).length).any fun t => t.2.2
    mean_ap := ((perLabelList x2s x1s (x1s.headD []).length).map
        fun t => t.1).sum / ((x1s.headD []).length : ℚ) * 100
    mean_auc := ((perLabelList x2s x1s (x1s.headD []).length).map
        fun t => t.2.1).sum / ((x1s.headD []).length : ℚ) * 100
    nsample := x1s.length }

/-- The accumulation buffers of `BCELossHead` (`self.audios`, `self.x1s`,
`self.x2s`, `self.ids`, filled by `infer`, loss_more.py:42-55); `none` models
a deleted attribute. -/
structure BCEState where
  audios : Option (List (List ℚ))
  x1s : Option (List (List ℚ))
  x2s : Option (List (List ℕ))
  ids : Option (List String)

/-- loss_more.py:57-97 — `BCELossHead.report`: reads the buffers (`torch.cat`
on a deleted attribute raises `AttributeError`), computes the metric summary,
and deletes the buffers (`del self.audios, self.x1s, self.x2s, self.ids`,
loss_more.py:94). -/
def BCELossHead.report (s : BCEState) : Except String (ReportData × BCEState) :=
  match s.x1s, s.x2s with
  | some x1s, some x2s =>
    Except.ok (reportData x2s x1s,
      { audios := none, x1s := none, x2s := none, ids := none })
  | _, _ => Except.error "AttributeError"

end Cvap

namespace Cvap

/-! ## Theorems -/

/-- C1 (counterexample): the claim says a step log line is emitted iff
`total_step % peep_rate = 0` and the rank is zero.  In the image–audio monitor
(cvap_dp.py:207) the `force_eval` flag also fires the log line: with
`force_eval = true`, rank 1 and `total_step = 3`, `peep_rate = 2`, the log is
emitted although `3 % 2 ≠ 0` and the rank is not zero. -/
theorem C1_counterexample :
    cvap_log_cond true 1 3 2 = true ∧ ¬(3 % 2 = 0 ∧ (1 : ℕ) = 0) := by
  decide

/-- C1 (amended): the audio–text monitor (clap_dp.py:169) emits the step log
line iff the rank is zero and `total_step % peep_rate = 0`; the image–audio
monitor (cvap_dp.py:207) emits it iff `force_eval` is set or the rank is zero
and `total_step % peep_rate = 0`. -/
theorem C1_log_iff (force_eval : Bool) (rank total_step peep_rate : ℕ) :
    (cvap_log_cond force_eval rank total_step peep_rate = true ↔
      (force_eval = true ∨ (rank = 0 ∧ total_step % peep_rate = 0))) ∧
    (clap_log_cond rank total_step peep_rate = true ↔
      (rank = 0 ∧ total_step % peep_rate = 0)) := by
  simp [cvap_log_cond, clap_log_cond]

/-- C6: for every positive B, F, T, `make_batch` maps an audio array of shape
(B, F, T) to a tensor of shape (B, 1, F, T): the channel dimension is inserted
at position 1 (cvap_dp.py:112, clap_dp.py:106-108). -/
theorem C6_make_batch_shape (B F T : ℕ) (hB : 0 < B) (hF : 0 < F) (hT : 0 < T) :
    make_batch_audio_shape [B, F, T] = [B, 1, F, T] := by
  simp [make_batch_audio_shape, unsqueeze1]

/-- C6 (witness): the shape statement at B = 2, F = 3, T = 4. -/
theorem C6_witness : make_batch_audio_shape [2, 3, 4] = [2, 1, 3, 4] :=
  C6_make_batch_shape 2 3 4 (by decide) (by decide) (by decide)

/-- C7: the configuration is never mutated by the monitors except for the peep
rate clamp in `build_data` of the image–audio monitor (cvap_dp.py:70-72): the
effective peep rate becomes `min nstep peep_rate`, every other field of every
section is unchanged, the audio–text monitor's `build_data` leaves the whole
record unchanged, and the per-step counter update leaves the whole record
unchanged. -/
theorem C7_config_frame (cfg : Config) (nstep : ℕ) (s : RunState) (loss : ℚ)
    (bsz nchunk : ℕ) :
    (cvap_build_data_cfg cfg nstep).running.peep_rate
        = min nstep cfg.running.peep_rate ∧
    (cvap_build_data_cfg cfg nstep).running.data_name = cfg.running.data_name ∧
    (cvap_build_data_cfg cfg nstep).running.eval_name = cfg.running.eval_name ∧
    (cvap_build_data_cfg cfg nstep).running.data_root = cfg.running.data_root ∧
    (cvap_build_data_cfg cfg nstep).running.save_rate = cfg.running.save_rate ∧
    (cvap_build_data_cfg cfg nstep).running.save_epoch = cfg.running.save_epoch ∧
    (cvap_build_data_cfg cfg nstep).running.eval_samples = cfg.running.eval_samples ∧
    (cvap_build_data_cfg cfg nstep).running.resolution = cfg.running.resolution ∧
    (cvap_build_data_cfg cfg nstep).running.eval_norms = cfg.running.eval_norms ∧
    (cvap_build_data_cfg cfg nstep).optimizer = cfg.optimizer ∧
    (cvap_build_data_cfg cfg nstep).rank = cfg.rank ∧
    (cvap_build_data_cfg cfg nstep).num_gpus = cfg.num_gpus ∧
    (cvap_build_data_cfg cfg nstep).eval = cfg.eval ∧
    (cvap_build_data_cfg cfg nstep).verbose = cfg.verbose ∧
    (cvap_build_data_cfg cfg nstep).alias_root = cfg.alias_root ∧
    (cvap_build_data_cfg cfg nstep).model_name = cfg.model_name ∧
    clap_build_data_cfg cfg = cfg ∧
    (step_counter_update cfg s loss bsz nchunk).1 = cfg := by
  unfold cvap_build_data_cfg clap_build_data_cfg step_counter_update
  by_cases h : nstep < cfg.running.peep_rate <;> simp [h] <;> omega

/-- C9: in the audio–text monitor (clap_dp.py:137,144), for every warmup step
count with `0 < warmup_steps < 20`, the warmup check of the first training
step (`total_step = 0`) raises `ZeroDivisionError`, because
`warmup_steps // 20 = 0` is used as a modulus; the image–audio monitor
(cvap_dp.py:161) bounds the rate below by 1 and its check never raises. -/
theorem C9_warmup_div_by_zero (W : ℕ) (h1 : 0 < W) (h2 : W < 20) :
    clap_warmup_check true 0 W = Except.error "ZeroDivisionError" ∧
    (∀ (use_lars warmup : Bool) (total_step warmup_steps : ℕ),
      ∃ b, cvap_warmup_check use_lars warmup total_step warmup_steps
            = Except.ok b) := by
  constructor
  · have hz : W / 20 = 0 := Nat.div_eq_of_lt h2
    simp [clap_warmup_check, hz]
  · intro use_lars warmup total_step warmup_steps
    unfold cvap_warmup_check
    by_cases h : (!use_lars && warmup) = true ∧ total_step ≤ warmup_steps
    · refine ⟨total_step % max (warmup_steps / 20) 1 == 0, ?_⟩
      have hmx : ¬(max (warmup_steps / 20) 1 = 0) := by omega
      rw [if_pos h, if_neg hmx]
    · exact ⟨false, if_neg h⟩

/-- C9 (witness): at `warmup_steps = 5` the audio–text warmup check of the
first step raises. -/
theorem C9_witness :
    clap_warmup_check true 0 5 = Except.error "ZeroDivisionError" :=
  (C9_warmup_div_by_zero 5 (by decide) (by decide)).1

/-- C10: in the audio–text monitor, at a step meeting the save cadence
(clap_dp.py:181-183), the held-out evaluation runs only when the current
detached loss is strictly below 5 (clap_dp.py:185), while the rank-zero
checkpoint write happens whenever the rank is zero, independently of the loss
value (clap_dp.py:194-195). -/
theorem C10_save_block (has_evalloader : Bool) (loss : ℚ) (rank : ℕ)
    (total_step save_rate nbatches : ℕ) (save_epoch : Bool)
    (hc : clap_save_cadence total_step save_rate save_epoch nbatches = true) :
    ((clap_save_block (clap_save_cadence total_step save_rate save_epoch nbatches)
        has_evalloader loss rank).eval_ran = true → loss < 5) ∧
    ((clap_save_block (clap_save_cadence total_step save_rate save_epoch nbatches)
        has_evalloader loss rank).checkpoint_written = (rank == 0)) ∧
    (∀ loss₂ : ℚ,
      (clap_save_block (clap_save_cadence total_step save_rate save_epoch nbatches)
          has_evalloader loss₂ rank).checkpoint_written
        = (clap_save_block (clap_save_cadence total_step save_rate save_epoch nbatches)
            has_evalloader loss rank).checkpoint_written) := by
  rw [hc]
  refine ⟨?_, rfl, fun loss₂ => rfl⟩
  intro h
  simp only [clap_save_block, if_true, Bool.and_eq_true, decide_eq_true_eq] at h
  exact h.2

/-- C10 (witness): at step 10 with `save_rate = 5` the cadence fires; with
rank 0 and loss 10 the checkpoint is written. -/
theorem C10_witness :
    (clap_save_block (clap_save_cadence 10 5 false 7) true 10 0).checkpoint_written
      = (0 == 0) :=
  (C10_save_block true 10 0 10 5 7 false (by decide)).2.1

/-- C2: after the parameter-selection loop of `build_optimizer`
(cvap_dp.py:287-290, likewise cvap.py:153-161), the set of parameters whose
`requires_grad` flag is still set equals exactly the declared tunable-name
set, provided every parameter enters the loop with its flag set (the PyTorch
default for freshly built modules) and every declared name is the name of a
model parameter (the tunable mapping produced by `model.build()` is a
sub-mapping of the model's state). -/
theorem C2_freeze_invariant (tunable : List String)
    (params : List (String × Bool))
    (hall : ∀ kv ∈ params, kv.2 = true)
    (hdecl : ∀ t ∈ tunable, t ∈ params.map Prod.fst) (k : String) :
    k ∈ trainableNames (selectParams false tunable params) ↔ k ∈ tunable := by
  simp only [trainableNames, selectParams, List.mem_map, List.mem_filter]
  constructor
  · rintro ⟨kv, ⟨⟨kv0, hkv0, hf⟩, hflag⟩, hname⟩
    by_cases ht : kv0.1 ∈ tunable
    · simp only [if_pos ht, Bool.false_eq_true, if_false] at hf
      subst hf
      exact hname ▸ ht
    · simp only [Bool.false_eq_true, if_false, if_neg ht] at hf
      subst hf
      exact absurd hflag (by simp)
  · intro hk
    obtain ⟨kv0, hkv0, hfst⟩ := List.mem_map.mp (hdecl k hk)
    refine ⟨kv0, ⟨⟨kv0, hkv0, ?_⟩, hall kv0 hkv0⟩, hfst⟩
    simp only [Bool.false_eq_true, if_false, hfst, if_pos hk]

/-- C2 (witness): the freezing invariant at a concrete model with parameters
`a`, `b` (both entering with their flag set) and tunable set `{a}`. -/
theorem C2_witness :
    "a" ∈ trainableNames (selectParams false ["a"] [("a", true), ("b", true)])
      ↔ "a" ∈ ["a"] :=
  C2_freeze_invariant ["a"] [("a", true), ("b", true)]
    (by decide) (by decide) "a"

/-- Closed form of the warmup ramp (cvap_dp.py:161-180): after the check at
`total_step = n ≤ warmup_steps`, a group's lr is the largest multiple of the
warmup step rate not exceeding `n`, divided by `warmup_steps`, times the
group's `initial_lr` (the update at `total_step = 0` always fires, so the
starting lr is irrelevant). -/
theorem warmupLrAfter_eq (W : ℕ) (hW : 0 < W) (initial_lr lr0 : ℚ) :
    ∀ n, n ≤ W →
      warmupLrAfter W initial_lr lr0 n
        = ((warmup_step_rate W * (n / warmup_step_rate W) : ℕ) : ℚ)
            / (W : ℚ) * initial_lr := by
  intro n
  induction n with
  | zero =>
    intro _
    simp [warmupLrAfter, warmupLrStep]
  | succ n ih =>
    intro hn
    have hr : 0 < warmup_step_rate W := by unfold warmup_step_rate; omega
    simp only [warmupLrAfter, warmupLrStep]
    by_cases hd : (n + 1) % warmup_step_rate W = 0
    · rw [if_pos ⟨hn, hd⟩, Nat.mul_div_cancel' (Nat.dvd_of_mod_eq_zero hd)]
    · rw [if_neg (by tauto), ih (Nat.le_of_succ_le hn)]
      have hnd : ¬ warmup_step_rate W ∣ (n + 1) :=
        fun hdvd => hd (Nat.mod_eq_zero_of_dvd hdvd)
      have : (n + 1) / warmup_step_rate W = n / warmup_step_rate W := by
        rw [Nat.succ_div, if_neg hnd, Nat.add_zero]
      rw [this]

/-- C3 (counterexample): the claim says the applied learning rate equals the
stored initial rate exactly at `step = warmup_steps`.  With
`warmup_steps = 41` the warmup step rate is `max(41 // 20, 1) = 2`, the check
at `total_step = 41` does not fire (`41 % 2 ≠ 0`), and the lr after step 41
is `40/41` of the initial rate (here `initial_lr = 1`), not the initial
rate. -/
theorem C3_counterexample : warmupLrAfter 41 1 0 41 ≠ 1 := by
  have h := warmupLrAfter_eq 41 (by norm_num) 1 0 41 le_rfl
  rw [h]
  norm_num [warmup_step_rate]

/-- C3 (amended): for warmup enabled and LARS disabled (cvap_dp.py:171-176),
the applied learning rate of each parameter group is non-decreasing over the
warmup steps, and it reaches exactly the group's stored `initial_lr` at
`step = warmup_steps` provided `max(warmup_steps // 20, 1)` divides
`warmup_steps` (in particular whenever `warmup_steps ≤ 40`); otherwise the
ramp ends at the largest multiple of the rate below `warmup_steps`. -/
theorem C3_warmup_amended (W : ℕ) (initial_lr lr0 : ℚ) (hW : 0 < W)
    (h0 : 0 ≤ initial_lr) :
    (∀ m n, m ≤ n → n ≤ W →
      warmupLrAfter W initial_lr lr0 m ≤ warmupLrAfter W initial_lr lr0 n) ∧
    (warmup_step_rate W ∣ W → warmupLrAfter W initial_lr lr0 W = initial_lr) := by
  constructor
  · intro m n hmn hn
    rw [warmupLrAfter_eq W hW _ _ m (le_trans hmn hn),
      warmupLrAfter_eq W hW _ _ n hn]
    have hWq : (0 : ℚ) < (W : ℚ) := by exact_mod_cast hW
    have hcast : ((warmup_step_rate W * (m / warmup_step_rate W) : ℕ) : ℚ)
        ≤ ((warmup_step_rate W * (n / warmup_step_rate W) : ℕ) : ℚ) := by
      exact_mod_cast Nat.mul_le_mul_left _ (Nat.div_le_div_right hmn)
    exact mul_le_mul_of_nonneg_right
      ((div_le_div_iff_of_pos_right hWq).mpr hcast) h0
  · intro hdvd
    rw [warmupLrAfter_eq W hW _ _ W le_rfl, Nat.mul_div_cancel' hdvd,
      div_self (by exact_mod_cast hW.ne' : (W : ℚ) ≠ 0), one_mul]

/-- C3 (witness): with `warmup_steps = 20` the rate is 1, the ramp is
monotone, and the lr after step 20 is exactly the initial rate 1. -/
theorem C3_witness : warmupLrAfter 20 1 0 20 = 1 :=
  (C3_warmup_amended 20 1 0 (by norm_num) (by norm_num)).2 (by decide)

/-- Reading a digit character back gives the digit. -/
theorem charVal_digitChar {d : ℕ} (hd : d < 10) : charVal (digitChar d) = d := by
  interval_cases d <;> rfl

/-- A list of zero digits has value zero. -/
theorem ofDigits_replicate_zero (k : ℕ) :
    Nat.ofDigits 10 (List.replicate k 0) = 0 := by
  induction k with
  | zero => rfl
  | succ k ih => simp [List.replicate_succ, Nat.ofDigits_cons, ih]

/-- The zero-padded decimal rendering of a step evaluates back to the step:
reading the digits of `pad8 n` least-significant first recovers `n`. -/
theorem pad8_val (n : ℕ) :
    Nat.ofDigits 10 (((pad8 n).map charVal).reverse) = n := by
  by_cases h0 : n = 0
  · subst h0; decide
  · have hmap : (decChars n).map charVal = ((Nat.digits 10 n).reverse) := by
      rw [decChars, if_neg h0, ← List.map_reverse, List.map_map]
      have hcongr : List.map (charVal ∘ digitChar) (Nat.digits 10 n).reverse
          = List.map id (Nat.digits 10 n).reverse :=
        List.map_congr_left fun d hd => charVal_digitChar
          (Nat.digits_lt_base (by norm_num) (List.mem_reverse.mp hd))
      rw [hcongr, List.map_id]
    rw [pad8, List.map_append, hmap, List.map_replicate]
    have : charVal '0' = 0 := rfl
    rw [this, List.reverse_append, List.reverse_reverse, List.reverse_replicate,
      Nat.ofDigits_append, Nat.ofDigits_digits, ofDigits_replicate_zero]
    ring

/-- `f"{n:08d}"` renders distinct steps as distinct strings. -/
theorem pad8_injective : Function.Injective pad8 := by
  intro m n h
  have h2 := congrArg (fun l => Nat.ofDigits 10 ((l.map charVal).reverse)) h
  simpa only [pad8_val] using h2

/-- Within one run directory, the checkpoint path determines the step. -/
theorem save_path_inj (alias_root model_name : List Char) {m n : ℕ}
    (h : save_path alias_root model_name m = save_path alias_root model_name n) :
    m = n := by
  unfold save_path at h
  have h1 := List.append_cancel_left h
  injection h1 with _ h2
  have h3 := List.append_cancel_left h2
  injection h3 with _ h4
  exact pad8_injective (List.append_cancel_right h4)

/-- C8: every checkpoint write serializes exactly the pair {configuration
snapshot, per-sub-head model state} to the path
`<alias_root>/<model_name>/<step:08d>.pth` keyed by the current total step
(cvap_dp.py:268-275, clap_dp.py:231-238), and within a run no two writes use
the same path: the save block runs at most once per loop iteration and
`total_step` strictly increases, so the written paths are pairwise
distinct. -/
theorem C8_checkpoint_paths {σ : Type} (cfg : Config)
    (alias_root model_name : List Char) (state : σ)
    (N save_rate nbatches : ℕ) (save_epoch : Bool) (force_eval : ℕ → Bool)
    (total_step : ℕ) :
    (savedPaths alias_root model_name N save_rate nbatches save_epoch
        force_eval).Nodup ∧
    (saveWrite cfg alias_root model_name state total_step).2
      = Checkpoint.mk cfg state ∧
    (saveWrite cfg alias_root model_name state total_step).1
      = alias_root ++ ('/' :: (model_name
          ++ ('/' :: (pad8 total_step ++ ".pth".data)))) := by
  refine ⟨?_, rfl, rfl⟩
  unfold savedPaths savedSteps
  apply List.Nodup.map
  · exact fun a b => save_path_inj alias_root model_name
  · exact (((List.nodup_range N).map (fun a b h => by omega)).filter _)

/-- Membership is preserved by descending insertion. -/
theorem mem_insertDesc (p q : ℕ × ℚ) (l : List (ℕ × ℚ)) :
    q ∈ insertDesc p l ↔ q = p ∨ q ∈ l := by
  induction l with
  | nil => simp [insertDesc]
  | cons r rest ih =>
    unfold insertDesc
    split
    · simp [List.mem_cons]
    · simp only [List.mem_cons, ih]
      tauto

/-- Sorting by descending score preserves membership. -/
theorem mem_sortDesc (q : ℕ × ℚ) (l : List (ℕ × ℚ)) :
    q ∈ sortDesc l ↔ q ∈ l := by
  induction l with
  | nil => simp [sortDesc]
  | cons r rest ih =>
    unfold sortDesc
    rw [mem_insertDesc, ih, List.mem_cons]

/-- The precision-at-positive-rank sum is non-negative. -/
theorem apSum_nonneg : ∀ (g : List Bool) (r t : ℕ), 0 ≤ apSum g r t
  | [], _, _ => le_refl 0
  | b :: rest, r, t => by
    unfold apSum
    split
    · have h1 : (0 : ℚ) ≤ ((t + 1 : ℕ) : ℚ) / ((r + 1 : ℕ) : ℚ) := by positivity
      have h2 := apSum_nonneg rest (r + 1) (t + 1)
      linarith
    · exact apSum_nonneg rest (r + 1) t

/-- Each precision term is at most 1, so the sum is bounded by the number of
positives. -/
theorem apSum_le_count : ∀ (g : List Bool) (r t : ℕ), t ≤ r →
    apSum g r t ≤ (g.count true : ℚ)
  | [], _, _, _ => by simp [apSum]
  | b :: rest, r, t, ht => by
    cases b with
    | true =>
      have hterm : ((t + 1 : ℕ) : ℚ) / ((r + 1 : ℕ) : ℚ) ≤ 1 := by
        rw [div_le_one (by positivity)]
        exact_mod_cast Nat.succ_le_succ ht
      have hrest := apSum_le_count rest (r + 1) (t + 1) (Nat.succ_le_succ ht)
      simp only [apSum, if_pos rfl, List.count_cons_self]
      push_cast at hterm ⊢
      linarith
    | false =>
      have hrest := apSum_le_count rest (r + 1) t (Nat.le_succ_of_le ht)
      simp only [apSum, Bool.false_eq_true, if_false]
      rw [List.count_cons_of_ne (by simp)]
      exact hrest

/-- A defined binary average-precision score lies in [0, 1]. -/
theorem average_precision_bounds {y : List ℕ} {s : List ℚ} {v : ℚ}
    (h : average_precision_score y s = some v) : 0 ≤ v ∧ v ≤ 1 := by
  unfold average_precision_score at h
  by_cases hc : (rankedPositives y s).count true = 0
  · rw [if_pos hc] at h
    exact absurd h (by simp)
  · rw [if_neg hc] at h
    have hv := Option.some.inj h
    have hpos : (0 : ℚ) < ((rankedPositives y s).count true : ℚ) := by
      exact_mod_cast Nat.pos_of_ne_zero hc
    subst hv
    constructor
    · exact div_nonneg (apSum_nonneg _ 0 0) hpos.le
    · rw [div_le_one hpos]
      exact apSum_le_count _ 0 0 (le_refl 0)

/-- A label column with no positive gold value has an undefined (NaN) binary
average precision. -/
theorem ap_none_of_no_positive {y : List ℕ} {s : List ℚ}
    (h : ∀ v ∈ y, v = 0) : average_precision_score y s = none := by
  unfold average_precision_score
  have hc : (rankedPositives y s).count true = 0 := by
    rw [List.count_eq_zero]
    intro hmem
    obtain ⟨p, hp, hpe⟩ := List.mem_map.mp hmem
    have hz : p.1 ∈ y := (List.of_mem_zip ((mem_sortDesc p _).mp hp)).1
    rw [h p.1 hz] at hpe
    simp at hpe
  rw [if_pos hc]

/-- A label column with no positive gold value makes sklearn's ROC AUC raise
(only one class present). -/
theorem auc_error_of_no_positive {y : List ℕ} {s : List ℚ}
    (h : ∀ v ∈ y, v = 0) :
    roc_auc_score y s = Except.error "Only one class present in y_true" := by
  unfold roc_auc_score
  have hz : (posScores y s).length = 0 := by
    rw [List.length_eq_zero, posScores, List.map_eq_nil_iff,
      List.filter_eq_nil_iff]
    intro p hp
    have h1 : p.1 ∈ y := (List.of_mem_zip hp).1
    simp [h p.1 h1]
  rw [if_pos (Or.inl hz)]

/-- On a label column with no positive gold value, the per-label loop
substitutes 0 for both the average precision and the AUC and sets the error
flag. -/
theorem perLabelStep_degenerate {y : List ℕ} {s : List ℚ}
    (h : ∀ v ∈ y, v = 0) : perLabelStep y s = (0, 0, true) := by
  unfold perLabelStep
  rw [ap_none_of_no_positive h, auc_error_of_no_positive h]

/-- A degenerate column among the first `nlabel` columns makes the macro
average precision NaN. -/
theorem ap_mac_none (x2s : List (List ℕ)) (x1s : List (List ℚ))
    (nlabel k : ℕ) (hk : k < nlabel)
    (hzero : ∀ v ∈ column x2s k, v = 0) :
    ap_mac_score x2s x1s nlabel = none := by
  unfold ap_mac_score
  rw [if_pos]
  rw [List.any_eq_true]
  refine ⟨average_precision_score (column x2s k) (columnQ x1s k), ?_, ?_⟩
  · unfold perColumnAp
    exact List.mem_map.mpr ⟨k, List.mem_range.mpr hk, rfl⟩
  · rw [ap_none_of_no_positive hzero]
    rfl

/-- A (gold, score) pair with positive gold makes the binary average
precision defined, with value in [0, 1]. -/
theorem ap_some_of_positive {y : List ℕ} {s : List ℚ}
    (h : ∃ p ∈ y.zip s, p.1 ≠ 0) :
    ∃ v, average_precision_score y s = some v ∧ 0 ≤ v ∧ v ≤ 1 := by
  obtain ⟨p, hp, hp1⟩ := h
  have hc : (rankedPositives y s).count true ≠ 0 := by
    rw [Ne, List.count_eq_zero]
    intro hnot
    exact hnot (List.mem_map.mpr ⟨p, (mem_sortDesc p _).mpr hp, by simp [hp1]⟩)
  have hsome : average_precision_score y s
      = some (apSum (rankedPositives y s) 0 0
          / ((rankedPositives y s).count true : ℚ)) := by
    unfold average_precision_score
    rw [if_neg hc]
  exact ⟨_, hsome, average_precision_bounds hsome⟩

/-- C4: `BCELossHead.report` is single-use per accumulation round: a
successful call deletes the prediction/label buffers (loss_more.py:94), so a
second call without re-accumulation raises `AttributeError` when `torch.cat`
reads the deleted attribute (loss_more.py:58). -/
theorem C4_report_single_use (s : BCEState) (r : ReportData) (s' : BCEState)
    (h : BCELossHead.report s = Except.ok (r, s')) :
    BCELossHead.report s' = Except.error "AttributeError" := by
  obtain ⟨a, x1, x2, i⟩ := s
  cases x1 with
  | none =>
    cases x2 <;> simp [BCELossHead.report] at h
  | some x1v =>
    cases x2 with
    | none => simp [BCELossHead.report] at h
    | some x2v =>
      simp only [BCELossHead.report, Except.ok.injEq, Prod.mk.injEq] at h
      obtain ⟨-, hs'⟩ := h
      subst hs'
      rfl

/-- C4 (witness): a first report on freshly accumulated buffers succeeds and
a second call on the resulting state errors. -/
theorem C4_witness :
    BCELossHead.report { audios := none, x1s := none, x2s := none, ids := none }
      = Except.error "AttributeError" :=
  C4_report_single_use
    { audios := some [], x1s := some [[1/2]], x2s := some [[1]], ids := some [] }
    (reportData [[1]] [[1/2]])
    { audios := none, x1s := none, x2s := none, ids := none }
    rfl

/-- C5 (counterexample): the claim says the micro and macro average-precision
scores over the full label set remain finite when a label column is all-zero.
At the concrete evaluation set with gold matrix [[1,0],[0,0]] (column 1 has no
positive) and score matrix [[1/2,1/3],[1/4,1/5]], the per-label degeneracy is
hit (`has_err` is set) and the sklearn macro average precision is NaN
(modelled `none`) because the undefined column score propagates through the
mean — not a finite value. -/
theorem C5_counterexample :
    (reportData [[1, 0], [0, 0]] [[(1 : ℚ)/2, 1/3], [1/4, 1/5]]).ap_mac = none
      ∧ (reportData [[1, 0], [0, 0]] [[(1 : ℚ)/2, 1/3], [1/4, 1/5]]).has_err
          = true := by
  constructor
  · exact ap_mac_none [[1, 0], [0, 0]] [[(1 : ℚ)/2, 1/3], [1/4, 1/5]]
      ([[(1 : ℚ)/2, 1/3], [1/4, 1/5]].headD []).length 1 (by decide) (by decide)
  · show (perLabelList [[1, 0], [0, 0]] [[(1 : ℚ)/2, 1/3], [1/4, 1/5]]
        ([[(1 : ℚ)/2, 1/3], [1/4, 1/5]].headD []).length).any
          (fun t => t.2.2) = true
    rw [List.any_eq_true]
    refine ⟨(0, 0, true), ?_, rfl⟩
    unfold perLabelList
    refine List.mem_map.mpr ⟨1, by decide, ?_⟩
    exact perLabelStep_degenerate (by decide)

/-- C5 (amended): on an accumulated evaluation set with a gold label column
`k` that is all zero (but some positive gold entry elsewhere), `report`
substitutes 0 for that label's per-label AUC and average precision, sets the
error flag surfaced in the report, does not propagate an exception, and the
micro average precision is still a finite value in [0, 100] — but the sklearn
macro average precision over the full label set is NaN (the undefined column
propagates), not a finite value. -/
theorem C5_degenerate (x2s : List (List ℕ)) (x1s : List (List ℚ)) (k : ℕ)
    (hk : k < (x1s.headD []).length)
    (hzero : ∀ v ∈ column x2s k, v = 0)
    (hpos : ∃ p ∈ (ravel x2s).zip (ravel x1s), p.1 ≠ 0) :
    (reportData x2s x1s).has_err = true ∧
    perLabelStep (column x2s k) (columnQ x1s k) = (0, 0, true) ∧
    (∃ v, (reportData x2s x1s).ap_micro = some v ∧ 0 ≤ v ∧ v ≤ 100) ∧
    (reportData x2s x1s).ap_mac = none ∧
    (∀ audios ids,
      BCELossHead.report ⟨audios, some x1s, some x2s, ids⟩
        = Except.ok (reportData x2s x1s,
            ⟨none, none, none, none⟩)) := by
  refine ⟨?_, perLabelStep_degenerate hzero, ?_, ?_, fun audios ids => rfl⟩
  · show (perLabelList x2s x1s (x1s.headD []).length).any
        (fun t => t.2.2) = true
    rw [List.any_eq_true]
    refine ⟨(0, 0, true), ?_, rfl⟩
    unfold perLabelList
    exact List.mem_map.mpr
      ⟨k, List.mem_range.mpr hk, perLabelStep_degenerate hzero⟩
  · obtain ⟨v, hv, h0, h1⟩ := ap_some_of_positive hpos
    exact ⟨v, hv, h0, le_trans h1 (by norm_num)⟩
  · exact ap_mac_none x2s x1s _ k hk hzero

/-- C5 (witness): the amended statement at the concrete evaluation set with
gold [[1,0],[0,0]] (column 1 degenerate, column 0 positive) and scores
[[1/2,1/3],[1/4,1/5]]. -/
theorem C5_witness :
    (reportData [[1, 0], [0, 0]] [[(1 : ℚ)/2, 1/3], [1/4, 1/5]]).has_err = true
      ∧ perLabelStep (column [[1, 0], [0, 0]] 1)
          (columnQ [[(1 : ℚ)/2, 1/3], [1/4, 1/5]] 1) = (0, 0, true) := by
  have h := C5_degenerate [[1, 0], [0, 0]] [[(1 : ℚ)/2, 1/3], [1/4, 1/5]] 1
    (by decide) (by decide) (by decide)
  exact ⟨h.1, h.2.1⟩

end Cvap
